import Mathlib

/-!
Verification of the treasure-authoring workflow of the Full-ARF-Volunteer
application: a shallow embedding of the authoring state machine
(pages/hide-treasures.tsx), the validate-and-upload and delete-treasure API
handlers (pages/api), the configuration publisher (update-web-config handler)
and the team-store session adapter (lib/firestore.ts), together with theorems
settling the specification claims about them.

Strings are embedded as Lean strings; character-level operations of the
source (JavaScript trim, regex replacements, regex score parsing) are
implemented explicitly over the underlying character lists.  Numeric
geolocation and size values are embedded as rationals; validator scores are
naturals (the source obtains them from parseInt on digit runs).
-/

/-! ## Character and string helpers modelling the JavaScript operations -/

/-- Numeric value of a digit character. -/
def digitVal (c : Char) : Nat := c.toNat - '0'.toNat

/-- Value of a digit run, most significant digit first (parseInt on digits). -/
def digitsToNat (ds : List Char) : Nat := ds.foldl (fun n c => 10 * n + digitVal c) 0

/-- First maximal digit run in a character list, as a number: the JavaScript
regex match on a digit group applied to free-form text. -/
def firstNumberMatch : List Char → Option Nat
  | [] => none
  | c :: rest =>
    if c.isDigit then some (digitsToNat (c :: rest.takeWhile Char.isDigit))
    else firstNumberMatch rest

/-- Characters accepted between the word score and the digits by the
score-extraction regex of the validation endpoint: a colon or whitespace. -/
def isScoreSep (c : Char) : Bool := c == ':' || c.isWhitespace

/-- Attempt to match, at the head of the list, the word score
(case-insensitively) followed by one or more separator characters followed by
a digit run, returning the digit run's value. -/
def matchScoreHere : List Char → Option Nat
  | c1 :: c2 :: c3 :: c4 :: c5 :: rest =>
    if c1.toLower == 's' && c2.toLower == 'c' && c3.toLower == 'o'
        && c4.toLower == 'r' && c5.toLower == 'e' then
      match rest with
      | [] => none
      | d :: ds =>
        if isScoreSep d then
          let digits := (ds.dropWhile isScoreSep).takeWhile Char.isDigit
          if digits.isEmpty then none else some (digitsToNat digits)
        else none
    else none
  | _ => none

/-- Leftmost match of the labelled score pattern in a character list. -/
def scoreLabeledMatch : List Char → Option Nat
  | [] => none
  | c :: rest =>
    match matchScoreHere (c :: rest) with
    | some n => some n
    | none => scoreLabeledMatch rest

/-- JavaScript String.prototype.trim on a character list. -/
def jsTrim (l : List Char) : List Char :=
  ((l.dropWhile Char.isWhitespace).reverse.dropWhile Char.isWhitespace).reverse

/-- JavaScript String.prototype.trim on a string. -/
def jsTrimString (s : String) : String := String.mk (jsTrim s.data)

/-- Replace each maximal whitespace run by a single underscore; the boolean
tracks whether the previous character belonged to a run already replaced. -/
def collapseWsAux : List Char → Bool → List Char
  | [], _ => []
  | c :: rest, inRun =>
    if c.isWhitespace then
      if inRun then collapseWsAux rest true
      else '_' :: collapseWsAux rest true
    else c :: collapseWsAux rest false

/-- The JavaScript replacement of every whitespace run by an underscore. -/
def collapseWs (l : List Char) : List Char := collapseWsAux l false

/-- Lowercase a label and replace whitespace runs by underscores, as done for
the imageName identity field of a new treasure record. -/
def jsLowerCollapse (s : String) : String :=
  String.mk (collapseWs (s.data.map Char.toLower))

/-- Replacement performed by the validation endpoint on each character of the
received image name that is not an ASCII letter or digit. -/
def sanitizeChar (c : Char) : Char := if c.isAlphanum then c else '_'

/-- Stored asset name computed by the validation endpoint: the label with
every non-alphanumeric character replaced by an underscore, then a png
extension. -/
def serverFileName (imageName : String) : String :=
  String.mk (imageName.data.map sanitizeChar) ++ ".png"

/-- File name recorded by the authoring workflow in the treasure record: the
unmodified label followed by a png extension. -/
def clientFileName (name : String) : String := name ++ ".png"

/-! ## Data model -/

/-- Three-dimensional offset or rotation attached to a treasure record. -/
structure Vec3 where
  x : ℚ
  y : ℚ
  z : ℚ
deriving DecidableEq, Repr

/-- One physical marker together with its clue, as exported in the
configuration document. -/
structure TreasureData where
  imageName : String
  fileName : String
  physicalSizeInMeters : ℚ
  clueIndex : Nat
  clueName : String
  spawnOffset : Vec3
  spawnRotation : Vec3
  clueText : String
  latitude : ℚ
  longitude : ℚ
  hasPhysicalGame : Bool
  physicalGameInstruction : String
  physicalGameSecretCode : String
deriving DecidableEq, Repr

/-- The exported configuration document. -/
structure WebConfig where
  images : List TreasureData
  lastUpdated : String
  totalTreasures : Nat
deriving DecidableEq, Repr

/-- A GPS fix held by the authoring page. -/
structure GPSCoordinates where
  latitude : ℚ
  longitude : ℚ
deriving DecidableEq, Repr

/-- The partial treasure record assembled right after a successful
validation, before clue text and physical-game fields are filled in. -/
structure PendingTreasure where
  imageName : String
  fileName : String
  physicalSizeInMeters : ℚ
  clueIndex : Nat
  clueName : String
  spawnOffset : Vec3
  spawnRotation : Vec3
  latitude : ℚ
  longitude : ℚ
deriving DecidableEq, Repr

/-- Response body of the validate-and-upload endpoint. -/
structure ValidationResult where
  success : Bool
  score : Option Nat
  error : Option String
  uploadUrl : Option String
deriving DecidableEq, Repr

/-- Steps of the authoring page. -/
inductive PageStep
  | setup
  | capture
  | crop
  | processing
  | clueBuilder
  | complete
deriving DecidableEq, Repr

/-- The state held by the authoring page that the claims are about. -/
structure WorkflowState where
  currentStep : PageStep
  treasureCount : Nat
  maxTreasures : Nat
  treasures : List TreasureData
  currentLocation : Option GPSCoordinates
  imageName : String
  capturedImage : Option String
  capturedImageBackup : Option String
  tempImageData : Option String
  croppedImage : Option String
  validationScore : Option Nat
  currentTreasure : Option PendingTreasure
  published : Option WebConfig
deriving DecidableEq, Repr

/-- Multipart payload assembled for the validate-and-upload request. -/
structure UploadPayload where
  fileName : String
  imageName : String
  latitude : String
  longitude : String
deriving DecidableEq, Repr

/-! ## Configuration constants (config.ts) -/

/-- Minimum score required for image validation. -/
def minValidationScore : Nat := 75

/-- Default maximum treasures per session. -/
def defaultMaxTreasures : Nat := 5

/-! ## Validate-and-upload endpoint (pages/api, validation handler) -/

/-- Outcome of the external validator subprocess invocation: either the
invocation threw, or it produced standard output and standard error text. -/
inductive ExecOutcome
  | failed
  | output (stdout stderr : String)

/-- Score extraction of the validation endpoint from the tool's free-form
output: a score-labelled number in stdout or stderr first, then any number in
stdout or stderr, else the initial value zero. -/
def parseValidationScore (stdout stderr : String) : Nat :=
  match scoreLabeledMatch stdout.data with
  | some n => n
  | none =>
    match scoreLabeledMatch stderr.data with
    | some n => n
    | none =>
      match firstNumberMatch stdout.data with
      | some n => n
      | none =>
        match firstNumberMatch stderr.data with
        | some n => n
        | none => 0

/-- Validation score determined by the endpoint: parsed from the tool output
when the invocation succeeds, and the hardcoded fallback 85 when the
invocation fails. -/
def determineValidationScore : ExecOutcome → Nat
  | .failed => 85
  | .output stdout stderr => parseValidationScore stdout stderr

/-- Threshold-failure message of the validation endpoint. -/
def belowThresholdMessage (score min : Nat) : String :=
  "Image quality score (" ++ toString score ++
    ") is below the required threshold of " ++ toString min ++
    ". Please capture an image with more visual features, better contrast, and sharper details."

/-- Response body built by the validation endpoint from the determined score:
success exactly when the score reaches the threshold, the score always
included, and an error message only below the threshold. -/
def mkApiValidationResult (min score : Nat) (uploadUrl : Option String) : ValidationResult :=
  { success := decide (min ≤ score)
    score := some score
    uploadUrl := uploadUrl
    error := if score < min then some (belowThresholdMessage score min) else none }

/-- Full response of the validation endpoint for a validator outcome. -/
def validateEndpointResult (e : ExecOutcome) (uploadUrl : Option String) : ValidationResult :=
  mkApiValidationResult minValidationScore (determineValidationScore e) uploadUrl

/-! ## Client workflow (pages/hide-treasures.tsx) -/

/-- Truthiness of the optional numeric score field of a parsed JSON response:
absent or zero is falsy. -/
def scoreTruthy : Option Nat → Bool
  | none => false
  | some s => s != 0

/-- Comparison the client performs between the response score and the
threshold; an absent score compares false. -/
def scoreAbove (score : Option Nat) (min : Nat) : Bool :=
  match score with
  | none => false
  | some s => decide (min < s)

/-- The client acceptance condition on the endpoint response: success flag
set, score present and truthy, and score strictly above the threshold. -/
def clientAccepts (r : ValidationResult) (min : Nat) : Bool :=
  r.success && scoreTruthy r.score && scoreAbove r.score min

/-- Whether the authoring workflow advances past validation for a validator
score, composing the endpoint's response computation with the client's
acceptance condition. -/
def advancesPastValidating (min score : Nat) : Bool :=
  clientAccepts (mkApiValidationResult min score none) min

/-- The partial treasure record the client assembles after an accepted
validation. -/
def mkCurrentTreasure (treasureCount : Nat) (name : String)
    (loc : Option GPSCoordinates) : PendingTreasure :=
  { imageName := "clue_" ++ toString treasureCount ++ "_" ++ jsLowerCollapse name
    fileName := clientFileName name
    physicalSizeInMeters := 15 / 100
    clueIndex := treasureCount
    clueName := name
    spawnOffset := ⟨0, 0, 0⟩
    spawnRotation := ⟨0, 0, 0⟩
    latitude := match loc with | some g => g.latitude | none => 0
    longitude := match loc with | some g => g.longitude | none => 0 }

/-- Decimal rendering of a coordinate for the multipart form. -/
def jsNumToString (q : ℚ) : String := toString q

/-- The multipart payload the client assembles for the validate-and-upload
request; missing coordinates fall back to the string zero. -/
def mkUploadPayload (name : String) (loc : Option GPSCoordinates) : UploadPayload :=
  { fileName := clientFileName name
    imageName := name
    latitude := match loc with | some g => jsNumToString g.latitude | none => "0"
    longitude := match loc with | some g => jsNumToString g.longitude | none => "0" }

/-- State transition the client performs on the endpoint response: on
acceptance record the score, assemble the partial treasure and move to the
clue builder; otherwise move back to capture, changing nothing else. -/
def validateAndUploadImage (min : Nat) (st : WorkflowState)
    (r : ValidationResult) : WorkflowState :=
  if clientAccepts r min then
    { st with
        validationScore := r.score
        currentTreasure := some (mkCurrentTreasure st.treasureCount st.imageName st.currentLocation)
        currentStep := .clueBuilder }
  else
    { st with currentStep := .capture }

/-- Completion of a pending treasure with the clue-builder fields; the
physical-game fields are kept only when the physical-game flag is set. -/
def completeTreasure (pt : PendingTreasure) (clueText : String)
    (hasPhysicalGame : Bool) (instruction secretCode : String) : TreasureData :=
  { imageName := pt.imageName
    fileName := pt.fileName
    physicalSizeInMeters := pt.physicalSizeInMeters
    clueIndex := pt.clueIndex
    clueName := pt.clueName
    spawnOffset := pt.spawnOffset
    spawnRotation := pt.spawnRotation
    clueText := jsTrimString clueText
    latitude := pt.latitude
    longitude := pt.longitude
    hasPhysicalGame := hasPhysicalGame
    physicalGameInstruction := if hasPhysicalGame then instruction else ""
    physicalGameSecretCode := if hasPhysicalGame then secretCode else "" }

/-- The configuration document recomputed on a publish: the record list, a
fresh timestamp, and the total recomputed as the list length. -/
def mkWebConfig (treasures : List TreasureData) (now : String) : WebConfig :=
  { images := treasures, lastUpdated := now, totalTreasures := treasures.length }

/-- Reset performed between treasures: all capture and clue-builder state is
cleared while the accumulated list and count are kept. -/
def resetForNextTreasure (st : WorkflowState) : WorkflowState :=
  { st with
      capturedImage := none
      croppedImage := none
      capturedImageBackup := none
      tempImageData := none
      imageName := ""
      validationScore := none
      currentTreasure := none }

/-- Saving a clue: guarded on a pending treasure and non-empty trimmed clue
text; appends the completed record, publishes the new configuration (the
publish call is best-effort), bumps the count and moves on according to the
quota and the operator's continue choice. -/
def saveClueAndContinue (st : WorkflowState) (clueText : String)
    (hasPhysicalGame : Bool) (instruction secretCode : String)
    (continueHiding : Bool) (publishOk : Bool) (now : String) : WorkflowState :=
  match st.currentTreasure with
  | none => st
  | some pt =>
    if jsTrimString clueText = "" then st
    else
      let complete := completeTreasure pt clueText hasPhysicalGame instruction secretCode
      let newTreasures := st.treasures ++ [complete]
      let newCount := st.treasureCount + 1
      let published := if publishOk then some (mkWebConfig newTreasures now) else st.published
      let base := { st with
        treasures := newTreasures
        treasureCount := newCount
        published := published }
      if st.maxTreasures ≤ newCount then { base with currentStep := .complete }
      else if continueHiding then
        { resetForNextTreasure base with currentStep := .capture }
      else { base with currentStep := .complete }

/-- Possible outcomes of the crop operation. -/
inductive CropResult
  | nameRequired
  | missingImage
  | canvasError
  | loadError
  | proceed (croppedData : String)
deriving DecidableEq, Repr

/-- First available image among the main state and its two backups. -/
def firstImageSource (a b c : Option String) : Option String :=
  match a with
  | some x => some x
  | none =>
    match b with
    | some y => some y
    | none => c

/-- The crop operation: requires a non-blank label first; then an image from
any of the three sources and a canvas; restores the backups, rasterizes the
crop region, stores the cropped image and moves to processing.  The canvas,
context and image-load availability and the rasterization itself are
environment parameters. -/
def cropImage (st : WorkflowState) (canvasOk ctxOk imgOk : Bool)
    (rasterize : String → String) : WorkflowState × CropResult :=
  if st.imageName == "" || jsTrimString st.imageName == "" then
    (st, .nameRequired)
  else
    match firstImageSource st.capturedImage st.capturedImageBackup st.tempImageData with
    | none => (st, .missingImage)
    | some img =>
      if !canvasOk then (st, .missingImage)
      else if !ctxOk then (st, .canvasError)
      else
        let restored := { st with
          capturedImage := some img
          capturedImageBackup := some (st.capturedImageBackup.getD img)
          tempImageData := some (st.tempImageData.getD img) }
        if !imgOk then (restored, .loadError)
        else
          ({ restored with
              croppedImage := some (rasterize img)
              currentStep := .processing },
            .proceed (rasterize img))

/-- The page's initial state. -/
def initialState : WorkflowState :=
  { currentStep := .setup
    treasureCount := 0
    maxTreasures := defaultMaxTreasures
    treasures := []
    currentLocation := none
    imageName := ""
    capturedImage := none
    capturedImageBackup := none
    tempImageData := none
    croppedImage := none
    validationScore := none
    currentTreasure := none
    published := none }

/-! ## Delete-treasure handler (pages/api/delete-treasure.ts) -/

/-- The configuration republished by the delete handler: the fetched records
with every record carrying the targeted imageName filtered out, a fresh
timestamp, and the total recomputed from the filtered list. -/
def deleteTreasureUpdatedConfig (currentTreasures : List TreasureData)
    (imageName : String) (now : String) : WebConfig :=
  let updatedTreasures := currentTreasures.filter (fun t => t.imageName != imageName)
  { images := updatedTreasures
    lastUpdated := now
    totalTreasures := updatedTreasures.length }

/-! ## Update-web-config handler (configuration publisher) -/

/-- Response body of the update-web-config handler. -/
structure UpdateConfigResponse where
  success : Bool
  error : Option String
  configPath : Option String
  treasureCount : Option Nat
deriving DecidableEq, Repr

/-- Durable effects of one publish: the three stores the handler writes,
each present exactly when its own write succeeded. -/
structure PublishEffects where
  localConfig : Option WebConfig
  remoteConfig : Option WebConfig
  publicConfig : Option WebConfig
deriving DecidableEq, Repr

/-- The publisher handler: a non-array body is rejected; otherwise the
configuration document is recomputed and the three writes are attempted
independently, each failure only logged, and the response reports success
regardless of the three outcomes. -/
def updateWebConfigHandler (treasures : Option (List TreasureData))
    (localOk remoteOk publicOk : Bool) (now : String) :
    UpdateConfigResponse × PublishEffects :=
  match treasures with
  | none =>
    ({ success := false, error := some "Invalid treasures data"
       configPath := none, treasureCount := none },
      { localConfig := none, remoteConfig := none, publicConfig := none })
  | some ts =>
    let webConfig := mkWebConfig ts now
    ({ success := true, error := none
       configPath := some "Web-config.JSON", treasureCount := some ts.length },
      { localConfig := if localOk then some webConfig else none
        remoteConfig := if remoteOk then some webConfig else none
        publicConfig := if publicOk then some webConfig else none })

/-! ## Team-store session adapter (lib/firestore.ts) -/

/-- A session sub-document, with each recognized field optional. -/
structure SessionObj where
  cluesCompleted : Option Int
  currentClueNumber : Option Int
  started : Option Bool
  status : Option String
  gameStarted : Option Bool
deriving DecidableEq, Repr

/-- The synthesized default session for teams that have not started. -/
def defaultSession : SessionObj :=
  { cluesCompleted := some 0
    currentClueNumber := some 0
    started := some false
    status := some "not_started"
    gameStarted := none }

/-- A raw team node as read from the realtime tree: a possible nested
session object under either recognized name, and the session-related fields
that may sit directly on the team object. -/
structure RawTeamNode where
  teamName : String
  session : Option SessionObj
  sessionUpper : Option SessionObj
  currentClueNumber : Option Int
  cluesCompleted : Option Int
  gameStarted : Option Bool
  started : Option Bool
  status : Option String
deriving DecidableEq, Repr

/-- The adapter's session resolution: the nested session object under the
canonical name, else under the legacy uppercase name, else a session
synthesized from session-related fields found directly on the team object,
else the default not-started session; never an error. -/
def resolveTeamSession (t : RawTeamNode) : SessionObj :=
  match t.session with
  | some s => s
  | none =>
    match t.sessionUpper with
    | some s => s
    | none =>
      let hasSessionData := t.currentClueNumber.isSome || t.cluesCompleted.isSome
        || t.gameStarted.isSome || t.started.isSome || t.status.isSome
      if hasSessionData then
        { cluesCompleted := t.cluesCompleted
          currentClueNumber := t.currentClueNumber
          started := t.started
          status := t.status
          gameStarted := t.gameStarted }
      else defaultSession

/-! ## Helper lemmas -/

/-- The composed gate reduces to a strict comparison with the threshold. -/
lemma advancesPastValidating_eq (min s : Nat) :
    advancesPastValidating min s = decide (min < s) := by
  simp only [advancesPastValidating, clientAccepts, mkApiValidationResult, scoreTruthy,
    scoreAbove]
  by_cases h : min < s
  · have h0 : s ≠ 0 := by omega
    simp [h, Nat.le_of_lt h, h0]
  · simp [h]

/-- Filtering out the matching elements shortens a list by their count. -/
lemma length_filter_not_add_countP {α : Type} (p : α → Bool) (l : List α) :
    (l.filter fun a => !(p a)).length + l.countP p = l.length := by
  induction l with
  | nil => simp
  | cons a t ih =>
    by_cases h : p a = true <;>
      simp [List.filter_cons, List.countP_cons, h, ← ih] <;> omega

/-! ## Claim C1 -/

/-- C1 counterexample: at the boundary score equal to minValidationScore the
claim predicts the workflow advances past validation, but the client's strict
comparison rejects it. -/
theorem c1_boundary_counterexample :
    minValidationScore ≤ 75 ∧ advancesPastValidating minValidationScore 75 = false := by
  exact ⟨by decide, by decide⟩

/-- C1 amended: the authoring workflow advances past Validating into the clue
builder iff the validator score is strictly greater than minValidationScore;
the boundary score equal to the threshold, and every lower score, send the
workflow back to Capturing. -/
theorem c1_strict_validation_gate (min s : Nat) (st : WorkflowState) :
    (advancesPastValidating min s = true ↔ min < s) ∧
    (validateAndUploadImage min st (mkApiValidationResult min s none)).currentStep =
      (if min < s then PageStep.clueBuilder else PageStep.capture) := by
  have he := advancesPastValidating_eq min s
  constructor
  · rw [he]; exact decide_eq_true_iff
  · have hacc : clientAccepts (mkApiValidationResult min s none) min = decide (min < s) := he
    unfold validateAndUploadImage
    rw [hacc]
    by_cases h : min < s <;> simp [h]

/-! ## Claim C2 -/

/-- C2: the publish handler reports success even when the durable local write
has failed (its own comment promises success only if the local save worked);
the failing input is a well-formed record list whose local write throws. -/
theorem c2_success_despite_local_failure :
    ((updateWebConfigHandler (some []) false true true "2025-01-01T00:00:00.000Z").1.success
        = true) ∧
    ((updateWebConfigHandler (some []) false true true "2025-01-01T00:00:00.000Z").2.localConfig
        = none) := by
  exact ⟨rfl, rfl⟩

/-! ## Claim C4 -/

/-- C4: a validator score below minValidationScore returns the workflow to
the Capturing step and leaves the accumulated treasure list, the published
configuration and the pending treasure unchanged. -/
theorem c4_rejection_preserves_state (st : WorkflowState) (s : Nat)
    (h : s < minValidationScore) :
    (validateAndUploadImage minValidationScore st
        (mkApiValidationResult minValidationScore s none)).currentStep = PageStep.capture ∧
    (validateAndUploadImage minValidationScore st
        (mkApiValidationResult minValidationScore s none)).treasures = st.treasures ∧
    (validateAndUploadImage minValidationScore st
        (mkApiValidationResult minValidationScore s none)).published = st.published ∧
    (validateAndUploadImage minValidationScore st
        (mkApiValidationResult minValidationScore s none)).currentTreasure = st.currentTreasure := by
  have hacc : clientAccepts (mkApiValidationResult minValidationScore s none)
      minValidationScore = false := by
    have he := advancesPastValidating_eq minValidationScore s
    have : ¬ (minValidationScore < s) := by omega
    simpa [advancesPastValidating, this] using he
  unfold validateAndUploadImage
  rw [hacc]
  exact ⟨rfl, rfl, rfl, rfl⟩

/-- C4 witness at score 40 against the threshold 75, from the initial page
state. -/
theorem c4_rejection_witness :
    40 < minValidationScore ∧
    ((validateAndUploadImage minValidationScore initialState
        (mkApiValidationResult minValidationScore 40 none)).currentStep = PageStep.capture ∧
    (validateAndUploadImage minValidationScore initialState
        (mkApiValidationResult minValidationScore 40 none)).treasures = initialState.treasures ∧
    (validateAndUploadImage minValidationScore initialState
        (mkApiValidationResult minValidationScore 40 none)).published = initialState.published ∧
    (validateAndUploadImage minValidationScore initialState
        (mkApiValidationResult minValidationScore 40 none)).currentTreasure
        = initialState.currentTreasure) :=
  ⟨by decide, c4_rejection_preserves_state initialState 40 (by decide)⟩

/-! ## Claim C5 -/

/-- C5: when the fetched configuration holds exactly one record with the
targeted imageName, the republished configuration has one record fewer, a
recomputed total equal to that length, and no remaining record carrying the
deleted imageName. -/
theorem c5_deletion_roundtrip (ts : List TreasureData) (name now : String)
    (h : (ts.countP fun t => t.imageName == name) = 1) :
    (deleteTreasureUpdatedConfig ts name now).images.length = ts.length - 1 ∧
    (deleteTreasureUpdatedConfig ts name now).totalTreasures = ts.length - 1 ∧
    ((deleteTreasureUpdatedConfig ts name now).images.all
      fun t => t.imageName != name) = true := by
  have hpred : (fun t : TreasureData => t.imageName != name)
      = (fun t : TreasureData => !(t.imageName == name)) := rfl
  have hlen : (ts.filter fun t => t.imageName != name).length = ts.length - 1 := by
    have := length_filter_not_add_countP (fun t : TreasureData => t.imageName == name) ts
    rw [h] at this
    rw [hpred]
    omega
  refine ⟨?_, ?_, ?_⟩
  · simpa [deleteTreasureUpdatedConfig] using hlen
  · simpa [deleteTreasureUpdatedConfig] using hlen
  · simp only [deleteTreasureUpdatedConfig]
    exact List.all_eq_true.mpr fun t ht => (List.mem_filter.mp ht).2

/-- A concrete treasure record used by witnesses. -/
def demoTreasure (iname fname cname : String) (idx : Nat) : TreasureData :=
  { imageName := iname
    fileName := fname
    physicalSizeInMeters := 15 / 100
    clueIndex := idx
    clueName := cname
    spawnOffset := ⟨0, 0, 0⟩
    spawnRotation := ⟨0, 0, 0⟩
    clueText := "Find the light"
    latitude := 0
    longitude := 0
    hasPhysicalGame := false
    physicalGameInstruction := ""
    physicalGameSecretCode := "" }

/-- C5 witness: deleting one of two records by its imageName. -/
theorem c5_deletion_witness :
    (([demoTreasure "clue_0_lighthouse" "Lighthouse.png" "Lighthouse" 0,
        demoTreasure "clue_1_mural" "Mural.png" "Mural" 1].countP
        fun t => t.imageName == "clue_0_lighthouse") = 1) ∧
    ((deleteTreasureUpdatedConfig
        [demoTreasure "clue_0_lighthouse" "Lighthouse.png" "Lighthouse" 0,
          demoTreasure "clue_1_mural" "Mural.png" "Mural" 1]
        "clue_0_lighthouse" "now").images.length
      = [demoTreasure "clue_0_lighthouse" "Lighthouse.png" "Lighthouse" 0,
          demoTreasure "clue_1_mural" "Mural.png" "Mural" 1].length - 1 ∧
    (deleteTreasureUpdatedConfig
        [demoTreasure "clue_0_lighthouse" "Lighthouse.png" "Lighthouse" 0,
          demoTreasure "clue_1_mural" "Mural.png" "Mural" 1]
        "clue_0_lighthouse" "now").totalTreasures
      = [demoTreasure "clue_0_lighthouse" "Lighthouse.png" "Lighthouse" 0,
          demoTreasure "clue_1_mural" "Mural.png" "Mural" 1].length - 1 ∧
    ((deleteTreasureUpdatedConfig
        [demoTreasure "clue_0_lighthouse" "Lighthouse.png" "Lighthouse" 0,
          demoTreasure "clue_1_mural" "Mural.png" "Mural" 1]
        "clue_0_lighthouse" "now").images.all
      fun t => t.imageName != "clue_0_lighthouse") = true) :=
  ⟨by decide,
    c5_deletion_roundtrip
      [demoTreasure "clue_0_lighthouse" "Lighthouse.png" "Lighthouse" 0,
        demoTreasure "clue_1_mural" "Mural.png" "Mural" 1]
      "clue_0_lighthouse" "now" (by decide)⟩

/-! ## Claim C6 -/

/-- The invariant of a saved record: without a physical game the instruction
and secret-code fields are both empty. -/
def recordInvB (t : TreasureData) : Bool :=
  t.hasPhysicalGame || (t.physicalGameInstruction == "" && t.physicalGameSecretCode == "")

/-- C6: a saved treasure whose physical-game flag is off gets empty
instruction and secret-code fields, and the invariant is preserved for every
record appended to the session list by a save. -/
theorem c6_physical_fields_invariant (st : WorkflowState) (clueText : String)
    (hasPhysicalGame : Bool) (instruction secretCode : String)
    (continueHiding publishOk : Bool) (now : String)
    (h : st.treasures.all recordInvB = true) :
    ((saveClueAndContinue st clueText hasPhysicalGame instruction secretCode
        continueHiding publishOk now).treasures.all recordInvB) = true := by
  unfold saveClueAndContinue
  cases hct : st.currentTreasure with
  | none => simpa using h
  | some pt =>
    by_cases hg : jsTrimString clueText = ""
    · simpa [hg] using h
    · have hrec : recordInvB
          (completeTreasure pt clueText hasPhysicalGame instruction secretCode) = true := by
        cases hasPhysicalGame <;> simp [completeTreasure, recordInvB]
      by_cases hq : st.maxTreasures ≤ st.treasureCount + 1 <;>
        by_cases hc : continueHiding <;>
          simp [hg, hq, hc, resetForNextTreasure, List.all_append, h, hrec]

/-- A concrete pending treasure used by witnesses. -/
def demoPending : PendingTreasure :=
  { imageName := "clue_0_lighthouse"
    fileName := "Lighthouse.png"
    physicalSizeInMeters := 15 / 100
    clueIndex := 0
    clueName := "Lighthouse"
    spawnOffset := ⟨0, 0, 0⟩
    spawnRotation := ⟨0, 0, 0⟩
    latitude := 0
    longitude := 0 }

/-- The clue-builder state reached after one accepted validation. -/
def demoClueState : WorkflowState :=
  { initialState with currentStep := .clueBuilder, currentTreasure := some demoPending }

/-- C6 witness: saving a clue without a physical game from a concrete
clue-builder state keeps the invariant over the accumulated list. -/
theorem c6_physical_fields_witness :
    (demoClueState.treasures.all recordInvB = true) ∧
    ((saveClueAndContinue demoClueState "Find the light" false "" "" true true
        "now").treasures.all recordInvB = true) :=
  ⟨by decide,
    c6_physical_fields_invariant demoClueState "Find the light" false "" "" true true
      "now" (by decide)⟩

/-! ## Claim C7 -/

/-- C7: a team node with no nested session object under either recognized
name and none of the recognized session-related fields resolves to the
synthesized default not-started session; the resolution is total, so a
missing session is never surfaced as an error. -/
theorem c7_default_session (t : RawTeamNode)
    (h1 : t.session = none) (h2 : t.sessionUpper = none)
    (h3 : t.currentClueNumber = none) (h4 : t.cluesCompleted = none)
    (h5 : t.gameStarted = none) (h6 : t.started = none) (h7 : t.status = none) :
    resolveTeamSession t =
      { cluesCompleted := some 0
        currentClueNumber := some 0
        started := some false
        status := some "not_started"
        gameStarted := none } := by
  unfold resolveTeamSession
  rw [h1, h2]
  simp [h3, h4, h5, h6, h7, defaultSession]

/-- A concrete team node with no session data at all. -/
def demoTeamNode : RawTeamNode :=
  { teamName := "Team 1"
    session := none
    sessionUpper := none
    currentClueNumber := none
    cluesCompleted := none
    gameStarted := none
    started := none
    status := none }

/-- C7 witness: the bare team node resolves to the default session. -/
theorem c7_default_session_witness :
    resolveTeamSession demoTeamNode =
      { cluesCompleted := some 0
        currentClueNumber := some 0
        started := some false
        status := some "not_started"
        gameStarted := none } :=
  c7_default_session demoTeamNode rfl rfl rfl rfl rfl rfl rfl

/-! ## Claim C8 -/

/-- C8: requesting a crop while the label is empty or blank fails with the
name-required outcome and leaves the whole workflow state unchanged: no
cropped image is produced, the step does not change, and validation is not
invoked. -/
theorem c8_crop_name_required (st : WorkflowState) (canvasOk ctxOk imgOk : Bool)
    (rasterize : String → String) (h : jsTrimString st.imageName = "") :
    cropImage st canvasOk ctxOk imgOk rasterize = (st, CropResult.nameRequired) := by
  unfold cropImage
  simp [h]

/-- A crop-step state whose label is only whitespace. -/
def cropDemoState : WorkflowState :=
  { initialState with
      currentStep := .crop
      imageName := "   "
      capturedImage := some "imagedata" }

/-- C8 witness: cropping with a whitespace-only label from a concrete state
returns the unchanged state and the name-required outcome. -/
theorem c8_crop_name_required_witness :
    jsTrimString cropDemoState.imageName = "" ∧
    cropImage cropDemoState true true true id = (cropDemoState, CropResult.nameRequired) :=
  ⟨by decide, c8_crop_name_required cropDemoState true true true id (by decide)⟩

/-! ## Claim C9 -/

/-- The sanitizing map fixes a character list exactly when every character is
alphanumeric or already an underscore. -/
lemma sanitize_fixpoint_iff (l : List Char) :
    l.map sanitizeChar = l ↔ (l.all fun c => c.isAlphanum || c == '_') = true := by
  induction l with
  | nil => simp
  | cons c t ih =>
    simp only [List.map_cons, List.all_cons, List.cons.injEq, Bool.and_eq_true,
      Bool.or_eq_true]
    constructor
    · rintro ⟨hc, ht⟩
      refine ⟨?_, ih.mp ht⟩
      by_cases ha : c.isAlphanum
      · exact Or.inl ha
      · right
        simp only [sanitizeChar, ha, if_false] at hc
        simp [← hc]
    · rintro ⟨hc, ht⟩
      refine ⟨?_, ih.mpr ht⟩
      rcases hc with ha | hu
      · simp [sanitizeChar, ha]
      · have : c = '_' := by simpa using hu
        simp [sanitizeChar, this]

/-- C9 counterexample: for the label with an underscore the two names
coincide although the label is not made of letters and digits only. -/
theorem c9_underscore_counterexample :
    serverFileName "a_b" = clientFileName "a_b" ∧
    ("a_b".data.all Char.isAlphanum) = false := by
  exact ⟨by decide, by decide⟩

/-- C9 amended: the stored asset name and the recorded file name coincide
exactly when every character of the label is a letter, a digit, or an
underscore. -/
theorem c9_filename_agreement_iff (name : String) :
    serverFileName name = clientFileName name ↔
    (name.data.all fun c => c.isAlphanum || c == '_') = true := by
  rw [← sanitize_fixpoint_iff]
  unfold serverFileName clientFileName
  rw [String.ext_iff, String.data_append, String.data_append]
  constructor
  · intro h
    have := List.append_left_injective _ h
    simpa using this
  · intro h
    show (String.mk (name.data.map sanitizeChar)).data ++ _ = name.data ++ _
    simp [h]

/-! ## Claim C10 -/

/-- C10: with no GPS fix the workflow proceeds: the upload payload carries
the string zero for both coordinates and, on an accepted score, the created
pending treasure record carries latitude and longitude zero while the
workflow advances to the clue builder. -/
theorem c10_missing_gps_defaults (st : WorkflowState) (s : Nat)
    (h : st.currentLocation = none) (hs : minValidationScore < s) :
    (mkUploadPayload st.imageName st.currentLocation).latitude = "0" ∧
    (mkUploadPayload st.imageName st.currentLocation).longitude = "0" ∧
    (validateAndUploadImage minValidationScore st
        (mkApiValidationResult minValidationScore s none)).currentStep
      = PageStep.clueBuilder ∧
    ((validateAndUploadImage minValidationScore st
        (mkApiValidationResult minValidationScore s none)).currentTreasure.map
        PendingTreasure.latitude) = some 0 ∧
    ((validateAndUploadImage minValidationScore st
        (mkApiValidationResult minValidationScore s none)).currentTreasure.map
        PendingTreasure.longitude) = some 0 := by
  have hacc : clientAccepts (mkApiValidationResult minValidationScore s none)
      minValidationScore = true := by
    have he := advancesPastValidating_eq minValidationScore s
    simpa [advancesPastValidating, hs] using he
  unfold validateAndUploadImage
  rw [hacc]
  refine ⟨?_, ?_, rfl, ?_, ?_⟩ <;> simp [mkUploadPayload, mkCurrentTreasure, h]

/-- The processing-step state of a session whose GPS fix never arrived. -/
def noGpsState : WorkflowState :=
  { initialState with
      currentStep := .processing
      imageName := "Lighthouse"
      capturedImage := some "imagedata" }

/-- C10 witness at score 82 from a concrete state without a GPS fix. -/
theorem c10_missing_gps_witness :
    noGpsState.currentLocation = none ∧ minValidationScore < 82 ∧
    ((mkUploadPayload noGpsState.imageName noGpsState.currentLocation).latitude = "0" ∧
    (mkUploadPayload noGpsState.imageName noGpsState.currentLocation).longitude = "0" ∧
    (validateAndUploadImage minValidationScore noGpsState
        (mkApiValidationResult minValidationScore 82 none)).currentStep
      = PageStep.clueBuilder ∧
    ((validateAndUploadImage minValidationScore noGpsState
        (mkApiValidationResult minValidationScore 82 none)).currentTreasure.map
        PendingTreasure.latitude) = some 0 ∧
    ((validateAndUploadImage minValidationScore noGpsState
        (mkApiValidationResult minValidationScore 82 none)).currentTreasure.map
        PendingTreasure.longitude) = some 0) :=
  ⟨rfl, by decide, c10_missing_gps_defaults noGpsState 82 rfl (by decide)⟩

/-! ## Claim C3 -/

/-- In text without digits the plain number match finds nothing. -/
lemma firstNumberMatch_eq_none (l : List Char) (h : ∀ c ∈ l, c.isDigit = false) :
    firstNumberMatch l = none := by
  induction l with
  | nil => rfl
  | cons c t ih =>
    have hc := h c (List.mem_cons_self c t)
    simp only [firstNumberMatch, hc, if_false]
    exact ih fun x hx => h x (List.mem_cons_of_mem c hx)

/-- Taking digits from a digit-free list yields nothing. -/
lemma takeWhile_isDigit_eq_nil (l : List Char) (h : ∀ c ∈ l, c.isDigit = false) :
    l.takeWhile Char.isDigit = [] := by
  cases l with
  | nil => rfl
  | cons c t => simp [List.takeWhile_cons, h c (List.mem_cons_self c t)]

/-- In text without digits the labelled score pattern cannot match at the
head. -/
lemma matchScoreHere_eq_none (l : List Char) (h : ∀ c ∈ l, c.isDigit = false) :
    matchScoreHere l = none := by
  match l with
  | [] => rfl
  | [_] => rfl
  | [_, _] => rfl
  | [_, _, _] => rfl
  | [_, _, _, _] => rfl
  | c1 :: c2 :: c3 :: c4 :: c5 :: rest =>
    simp only [matchScoreHere]
    by_cases hword : (c1.toLower == 's' && c2.toLower == 'c' && c3.toLower == 'o'
        && c4.toLower == 'r' && c5.toLower == 'e') = true
    · rw [if_pos hword]
      cases rest with
      | nil => rfl
      | cons d ds =>
        dsimp only
        by_cases hsep : isScoreSep d = true
        · rw [if_pos hsep]
          have hds : ∀ c ∈ ds.dropWhile isScoreSep, c.isDigit = false := by
            intro c hc
            have hmem : c ∈ ds := (List.dropWhile_sublist isScoreSep).mem hc
            exact h c (by simp [hmem])
          have htw : (ds.dropWhile isScoreSep).takeWhile Char.isDigit = [] :=
            takeWhile_isDigit_eq_nil _ hds
          simp [htw]
        · rw [if_neg hsep]
    · rw [if_neg hword]

/-- In text without digits the leftmost labelled score search finds
nothing. -/
lemma scoreLabeledMatch_eq_none (l : List Char) (h : ∀ c ∈ l, c.isDigit = false) :
    scoreLabeledMatch l = none := by
  induction l with
  | nil => rfl
  | cons c t ih =>
    unfold scoreLabeledMatch
    rw [matchScoreHere_eq_none (c :: t) h]
    exact ih fun x hx => h x (List.mem_cons_of_mem c hx)

/-- With digit-free tool output the extracted score stays at its initial
value zero. -/
lemma parseValidationScore_eq_zero (stdout stderr : String)
    (hout : ∀ c ∈ stdout.data, c.isDigit = false)
    (herr : ∀ c ∈ stderr.data, c.isDigit = false) :
    parseValidationScore stdout stderr = 0 := by
  unfold parseValidationScore
  rw [scoreLabeledMatch_eq_none _ hout, scoreLabeledMatch_eq_none _ herr,
    firstNumberMatch_eq_none _ hout, firstNumberMatch_eq_none _ herr]

/-- C3 counterexample: when the validator invocation fails the endpoint
substitutes the hardcoded passing score 85 and reports success with no error
and no unverified flag, silently passing the image. -/
theorem c3_silent_pass_counterexample :
    determineValidationScore ExecOutcome.failed = 85 ∧
    minValidationScore ≤ 85 ∧
    (validateEndpointResult ExecOutcome.failed none).success = true ∧
    (validateEndpointResult ExecOutcome.failed none).error = none := by
  exact ⟨rfl, by decide, by decide, by decide⟩

/-- C3 amended: only the unparseable-output half of the claim holds.  When
the invocation succeeds but no score can be parsed (no digit anywhere in the
output), the score stays zero and validation fails with an explicit error;
but when the invocation itself fails, the endpoint silently substitutes the
hardcoded passing score 85 and reports success. -/
theorem c3_fallback_policy (stdout stderr : String)
    (hout : (stdout.data.all fun c => !c.isDigit) = true)
    (herr : (stderr.data.all fun c => !c.isDigit) = true) :
    (determineValidationScore (ExecOutcome.output stdout stderr) = 0 ∧
      (validateEndpointResult (ExecOutcome.output stdout stderr) none).success = false ∧
      (validateEndpointResult (ExecOutcome.output stdout stderr) none).error ≠ none) ∧
    (determineValidationScore ExecOutcome.failed = 85 ∧
      (validateEndpointResult ExecOutcome.failed none).success = true) := by
  have hout' : ∀ c ∈ stdout.data, c.isDigit = false := by
    intro c hc
    have := List.all_eq_true.mp hout c hc
    simpa using this
  have herr' : ∀ c ∈ stderr.data, c.isDigit = false := by
    intro c hc
    have := List.all_eq_true.mp herr c hc
    simpa using this
  have hz : parseValidationScore stdout stderr = 0 :=
    parseValidationScore_eq_zero stdout stderr hout' herr'
  refine ⟨⟨hz, ?_, ?_⟩, rfl, by decide⟩
  · simp [validateEndpointResult, determineValidationScore, hz, mkApiValidationResult,
      minValidationScore]
  · simp [validateEndpointResult, determineValidationScore, hz, mkApiValidationResult,
      minValidationScore]

/-- C3 witness: digit-free tool output is treated as a validation failure,
while an invocation failure silently passes. -/
theorem c3_fallback_witness :
    (("no parseable result".data.all fun c => !c.isDigit) = true) ∧
    (("tool crashed".data.all fun c => !c.isDigit) = true) ∧
    ((determineValidationScore (ExecOutcome.output "no parseable result" "tool crashed") = 0 ∧
      (validateEndpointResult (ExecOutcome.output "no parseable result" "tool crashed")
          none).success = false ∧
      (validateEndpointResult (ExecOutcome.output "no parseable result" "tool crashed")
          none).error ≠ none) ∧
    (determineValidationScore ExecOutcome.failed = 85 ∧
      (validateEndpointResult ExecOutcome.failed none).success = true)) :=
  ⟨by decide, by decide,
    c3_fallback_policy "no parseable result" "tool crashed" (by decide) (by decide)⟩
